import Mathlib

/-!
Shallow embedding of `packages/hooks-cli/hooks_builder/hooks_builder.ts`
(hooks-rs CLI hook builder) and proofs about its payload construction,
toolchain pipeline, fee estimation and retrying submission logic.

Machine integers are modelled as `Nat` with explicit `% 2 ^ 32` where the
SHA-256 digest arithmetic overflows; all definitions are executable.
-/

namespace HooksBuilder

/-- One character is a hexadecimal digit (either case): `0`-`9`, `a`-`f`, `A`-`F`. -/
def isHexDigitChar (c : Char) : Bool :=
  (48 ≤ c.toNat && c.toNat ≤ 57) || (97 ≤ c.toNat && c.toNat ≤ 102) ||
    (65 ≤ c.toNat && c.toNat ≤ 70)

/-- The lowercase hexadecimal digit of a value below 16. -/
def hexDigitLower (n : Nat) : Char :=
  if n < 10 then Char.ofNat (48 + n) else Char.ofNat (97 + (n - 10))

/-- The two lowercase hex digits of one byte (high nibble first). -/
def byteToHexChars (b : Nat) : List Char :=
  [hexDigitLower (b / 16 % 16), hexDigitLower (b % 16)]

/-- Truncation to a 32-bit word. -/
def w32 (n : Nat) : Nat := n % 4294967296

/-- Bitwise combination of the low `k` bits of two naturals, by structural
recursion over the bit count so the kernel can evaluate it. -/
def bitwiseAux (f : Nat → Nat → Nat) : Nat → Nat → Nat → Nat
  | 0, _, _ => 0
  | k + 1, a, b => f (a % 2) (b % 2) + 2 * bitwiseAux f k (a / 2) (b / 2)

/-- 32-bit exclusive or. -/
def xor32 (a b : Nat) : Nat := bitwiseAux (fun x y => (x + y) % 2) 32 a b

/-- 32-bit bitwise and. -/
def and32 (a b : Nat) : Nat := bitwiseAux (fun x y => x * y) 32 a b

/-- 32-bit bitwise complement. -/
def not32 (a : Nat) : Nat := 4294967295 - w32 a

/-- Rotate a 32-bit word right by `k` bits. -/
def rotr32 (k a : Nat) : Nat := a / 2 ^ k + a % 2 ^ k * 2 ^ (32 - k)

/-- Logical right shift of a 32-bit word. -/
def shr32 (k a : Nat) : Nat := a / 2 ^ k

/-- SHA-256 Σ0. -/
def bigSigma0 (x : Nat) : Nat := xor32 (rotr32 2 x) (xor32 (rotr32 13 x) (rotr32 22 x))

/-- SHA-256 Σ1. -/
def bigSigma1 (x : Nat) : Nat := xor32 (rotr32 6 x) (xor32 (rotr32 11 x) (rotr32 25 x))

/-- SHA-256 σ0. -/
def smallSigma0 (x : Nat) : Nat := xor32 (rotr32 7 x) (xor32 (rotr32 18 x) (shr32 3 x))

/-- SHA-256 σ1. -/
def smallSigma1 (x : Nat) : Nat := xor32 (rotr32 17 x) (xor32 (rotr32 19 x) (shr32 10 x))

/-- SHA-256 choice function. -/
def chF (e f g : Nat) : Nat := xor32 (and32 e f) (and32 (not32 e) g)

/-- SHA-256 majority function. -/
def majF (a b c : Nat) : Nat := xor32 (and32 a b) (xor32 (and32 a c) (and32 b c))

/-- The 64 SHA-256 round constants of FIPS 180-4, in decimal. -/
def sha256K : List Nat :=
  [1116352408, 1899447441, 3049323471, 3921009573, 961987163,
   1508970993, 2453635748, 2870763221, 3624381080, 310598401,
   607225278, 1426881987, 1925078388, 2162078206, 2614888103,
   3248222580, 3835390401, 4022224774, 264347078, 604807628,
   770255983, 1249150122, 1555081692, 1996064986, 2554220882,
   2821834349, 2952996808, 3210313671, 3336571891, 3584528711,
   113926993, 338241895, 666307205, 773529912, 1294757372,
   1396182291, 1695183700, 1986661051, 2177026350, 2456956037,
   2730485921, 2820302411, 3259730800, 3345764771, 3516065817,
   3600352804, 4094571909, 275423344, 430227734, 506948616,
   659060556, 883997877, 958139571, 1322822218, 1537002063,
   1747873779, 1955562222, 2024104815, 2227730452, 2361852424,
   2428436474, 2756734187, 3204031479, 3329325298]

/-- The SHA-256 initial hash value of FIPS 180-4, in decimal. -/
def sha256Init : List Nat :=
  [1779033703, 3144134277, 1013904242, 2773480762,
   1359893119, 2600822924, 528734635, 1541459225]

/-- The eight 32-bit working variables of the compression function. -/
structure Sha256State where
  a : Nat
  b : Nat
  c : Nat
  d : Nat
  e : Nat
  f : Nat
  g : Nat
  h : Nat
deriving DecidableEq, Repr

/-- One SHA-256 compression round on constant-and-schedule-word `kw`. -/
def sha256Round (st : Sha256State) (kw : Nat × Nat) : Sha256State :=
  let t1 := w32 (st.h + bigSigma1 st.e + chF st.e st.f st.g + kw.1 + kw.2)
  let t2 := w32 (bigSigma0 st.a + majF st.a st.b st.c)
  { a := w32 (t1 + t2), b := st.a, c := st.b, d := st.c,
    e := w32 (st.d + t1), f := st.e, g := st.f, h := st.g }

/-- Append the next message-schedule word. -/
def scheduleStep (ws : List Nat) : List Nat :=
  let n := ws.length
  ws ++ [w32 (smallSigma1 (ws.getD (n - 2) 0) + ws.getD (n - 7) 0 +
    smallSigma0 (ws.getD (n - 15) 0) + ws.getD (n - 16) 0)]

/-- Extend the 16-word block schedule by `k` further words. -/
def extendSchedule : Nat → List Nat → List Nat
  | 0, ws => ws
  | k + 1, ws => extendSchedule k (scheduleStep ws)

/-- Compress one 16-word block into the running 8-word hash value. -/
def compressBlock (hv : List Nat) (block : List Nat) : List Nat :=
  let ws := extendSchedule 48 block
  let st0 : Sha256State :=
    { a := hv.getD 0 0, b := hv.getD 1 0, c := hv.getD 2 0, d := hv.getD 3 0,
      e := hv.getD 4 0, f := hv.getD 5 0, g := hv.getD 6 0, h := hv.getD 7 0 }
  let st := (sha256K.zip ws).foldl sha256Round st0
  [w32 (hv.getD 0 0 + st.a), w32 (hv.getD 1 0 + st.b), w32 (hv.getD 2 0 + st.c),
   w32 (hv.getD 3 0 + st.d), w32 (hv.getD 4 0 + st.e), w32 (hv.getD 5 0 + st.f),
   w32 (hv.getD 6 0 + st.g), w32 (hv.getD 7 0 + st.h)]

/-- The 8-byte big-endian length field of the SHA-256 padding. -/
def lenBytes64 (n : Nat) : List Nat :=
  [n / 2 ^ 56 % 256, n / 2 ^ 48 % 256, n / 2 ^ 40 % 256, n / 2 ^ 32 % 256,
   n / 2 ^ 24 % 256, n / 2 ^ 16 % 256, n / 2 ^ 8 % 256, n % 256]

/-- SHA-256 message padding to a multiple of 64 bytes. -/
def padMessage (msg : List Nat) : List Nat :=
  let len := msg.length
  let zeros := (64 - (len + 9) % 64) % 64
  msg ++ [128] ++ List.replicate zeros 0 ++ lenBytes64 (8 * len)

/-- Group bytes into big-endian 32-bit words. -/
def bytesToWords : List Nat → List Nat
  | b0 :: b1 :: b2 :: b3 :: rest =>
    (b0 * 16777216 + b1 * 65536 + b2 * 256 + b3) :: bytesToWords rest
  | _ => []

/-- Split a word list into `k` chunks of 16 words. -/
def wordChunks : Nat → List Nat → List (List Nat)
  | 0, _ => []
  | k + 1, ws => ws.take 16 :: wordChunks k (ws.drop 16)

/-- The SHA-256 digest of a byte sequence, as eight 32-bit words. -/
def sha256Words (bytes : List Nat) : List Nat :=
  let ws := bytesToWords (padMessage bytes)
  (wordChunks (ws.length / 16) ws).foldl compressBlock sha256Init

/-- The eight lowercase hex digits of one 32-bit word. -/
def wordToHex8 (w : Nat) : List Char :=
  [hexDigitLower (w / 2 ^ 28 % 16), hexDigitLower (w / 2 ^ 24 % 16),
   hexDigitLower (w / 2 ^ 20 % 16), hexDigitLower (w / 2 ^ 16 % 16),
   hexDigitLower (w / 2 ^ 12 % 16), hexDigitLower (w / 2 ^ 8 % 16),
   hexDigitLower (w / 2 ^ 4 % 16), hexDigitLower (w % 16)]

/-- The SHA-256 digest of a byte sequence as a 64-character lowercase hex
string — the behaviour of the `Sha256().update(...).hex()` collaborator from
the Deno standard library used by `hexNamespace`. -/
def sha256Hex (bytes : List Nat) : String :=
  String.mk (((sha256Words bytes).map wordToHex8).flatten)

/-- The UTF-8 bytes of one character. -/
def utf8Bytes (c : Char) : List Nat :=
  let n := c.toNat
  if n < 128 then [n]
  else if n < 2048 then [192 + n / 64, 128 + n % 64]
  else if n < 65536 then [224 + n / 4096, 128 + n / 64 % 64, 128 + n % 64]
  else [240 + n / 262144, 128 + n / 4096 % 64, 128 + n / 64 % 64, 128 + n % 64]

/-- The UTF-8 bytes of a string, as fed to the hash by `update`. -/
def stringUtf8 (s : String) : List Nat := (s.data.map utf8Bytes).flatten

/-- Modelled from the spec: `Hex.isHex` lives in `packages/hooks-cli/misc/mod.ts`,
which is not under `src/`; per §4.2 a string counts as "already valid hex" when
every character is a hexadecimal digit. -/
def Hex.isHex (s : String) : Bool := s.data.all isHexDigitChar

/-- Modelled from the spec: `Hex.stringToHexString` lives in
`packages/hooks-cli/misc/mod.ts`, which is not under `src/`; per §4.2 it converts
"each character's byte representation to a two-hex-digit sequence". -/
def Hex.stringToHexString (s : String) : String :=
  String.mk ((s.data.map (fun c => byteToHexChars (c.toNat % 256))).flatten)

/-- Modelled from the spec: `Hex.uint8ArrayToHexString` lives in
`packages/hooks-cli/misc/mod.ts`, which is not under `src/`; per §4.4 stage 6 it
hex-encodes a byte array, two hex digits per byte, in byte order. -/
def Hex.uint8ArrayToHexString (bytes : List (Fin 256)) : String :=
  String.mk ((bytes.map (fun b => byteToHexChars b.val)).flatten)

/-- The uppercase hexadecimal digit of a value below 16. -/
def hexDigitUpper (n : Nat) : Char :=
  if n < 10 then Char.ofNat (48 + n) else Char.ofNat (65 + (n - 10))

/-- JavaScript `.toUpperCase()` on the character sequence of a string. -/
def strToUpper (s : String) : String := String.mk (s.data.map Char.toUpper)

/-- `hexNamespace` from the source: SHA-256 digest of the seed, upper-cased. -/
def hexNamespace (hookNamespaceSeed : String) : String :=
  strToUpper (sha256Hex (stringUtf8 hookNamespaceSeed))

/-- A JavaScript optional-number argument: `undefined`, `null`, or a number
(modelled as an integer; the calls under proof pass integers). -/
inductive JSNum where
  | undefined
  | null
  | num (n : Int)
deriving DecidableEq, Repr

/-- The JavaScript test `typeof v === "number"`. -/
def JSNum.isNumber : JSNum → Bool
  | .num _ => true
  | _ => false

/-- The numeric value of a number argument. -/
def JSNum.toInt : JSNum → Int
  | .num n => n
  | _ => 0

/-- JavaScript truthiness of an optional-number argument: only a non-zero
number is truthy. -/
def JSNum.truthy : JSNum → Bool
  | .num n => n != 0
  | _ => false

/-- A JavaScript optional-string argument: `undefined`, `null`, or a string. -/
inductive JSStr where
  | undefined
  | null
  | str (s : String)
deriving DecidableEq, Repr

/-- JavaScript truthiness of an optional-string argument: only a non-empty
string is truthy. -/
def JSStr.truthy : JSStr → Bool
  | .str s => !s.isEmpty
  | _ => false

/-- The string value of a string argument. -/
def JSStr.getStr : JSStr → String
  | .str s => s
  | _ => ""

/-- The name/value fields of one hook parameter. -/
structure HookParameterFields where
  HookParameterName : String
  HookParameterValue : String
deriving DecidableEq, Repr

set_option linter.dupNamespace false in
/-- The `HookParameter` wire wrapper from `types/hooks.ts`. -/
structure HookParameter where
  HookParameter : HookParameterFields
deriving DecidableEq, Repr

/-- A hook grant descriptor; the builder passes grants through opaquely, so its
content is irrelevant and modelled as one opaque string. -/
structure HookGrant where
  grant : String
deriving DecidableEq, Repr

/-- The `HookPayload` record; optional wire fields are `Option`-valued, `none`
meaning the field is absent from the built object. -/
structure HookPayload where
  hookOn : String
  HookApiVersion : Option Int
  HookNamespace : Option String
  Flags : Option Int
  HookParameters : Option (List HookParameter)
  HookGrants : Option (List HookGrant)
  CreateCode : Option String
deriving DecidableEq, Repr

/-- The default string literal of the `hookOn` parameter of
`createHookPayload` (source line 40). -/
def defaultHookOn : String :=
  "0xffffffffffffffffffffffffffffffffffffffffffffffffffffffffffbfffff"

/-- The loop body of `hexHookParameters` (source lines 14-32), pushing each
normalized parameter onto the accumulator in input order. -/
def hexHookParametersGo : List HookParameter → List HookParameter → List HookParameter
  | [], acc => acc
  | p :: rest, acc =>
    let hookPName := p.HookParameter.HookParameterName
    let hookPValue := p.HookParameter.HookParameterValue
    let hookPName := if !(Hex.isHex hookPName) then Hex.stringToHexString hookPName
      else hookPName
    let hookPValue := if !(Hex.isHex hookPValue) then Hex.stringToHexString hookPValue
      else hookPValue
    hexHookParametersGo rest (acc ++
      [{ HookParameter :=
          { HookParameterName := hookPName, HookParameterValue := hookPValue } }])

/-- `hexHookParameters` from the source: normalize every parameter's name and
value to hex, preserving order. -/
def hexHookParameters (data : List HookParameter) : List HookParameter :=
  hexHookParametersGo data []

/-- `createHookPayload` from the source (lines 36-63). `hookOnArg = none` models
the caller not supplying the `hookOn` argument, in which case the declared
default string is used; the remaining optional arguments carry their JavaScript
`undefined`/`null`/value distinctions. The parameter named `namespace` in the
source is `namespaceArg` here (`namespace` is a Lean keyword). -/
def createHookPayload (version : JSNum) (namespaceArg : JSStr) (flags : JSNum)
    (hookOnArg : Option String) (hookParams : Option (List HookParameter))
    (hookGrants : Option (List HookGrant)) : HookPayload :=
  let hookOn := hookOnArg.getD defaultHookOn
  let hook : HookPayload :=
    { hookOn := hookOn, HookApiVersion := none, HookNamespace := none,
      Flags := none, HookParameters := none, HookGrants := none, CreateCode := none }
  let hook := if version.isNumber then { hook with HookApiVersion := some version.toInt }
    else hook
  let hook := if namespaceArg.truthy then
      { hook with HookNamespace := some (hexNamespace namespaceArg.getStr) }
    else hook
  let hook := if flags.truthy then { hook with Flags := some flags.toInt } else hook
  let hook := match hookParams with
    | some ps => { hook with HookParameters := some (hexHookParameters ps) }
    | none => hook
  let hook := match hookGrants with
    | some gs => { hook with HookGrants := some gs }
    | none => hook
  hook

/-- Parse a `0x`-prefixed hexadecimal numeral (either case). -/
def parseHexDigits : List Char → Nat → Option Nat
  | [], acc => some acc
  | c :: rest, acc =>
    if 48 ≤ c.toNat && c.toNat ≤ 57 then parseHexDigits rest (16 * acc + (c.toNat - 48))
    else if 97 ≤ c.toNat && c.toNat ≤ 102 then parseHexDigits rest (16 * acc + (c.toNat - 87))
    else if 65 ≤ c.toNat && c.toNat ≤ 70 then parseHexDigits rest (16 * acc + (c.toNat - 55))
    else none

/-- The numeric value of a `0x`-prefixed hexadecimal string literal. -/
def parseHexLiteral (s : String) : Option Nat :=
  match s.data with
  | '0' :: 'x' :: rest => if rest.isEmpty then none else parseHexDigits rest 0
  | _ => none

/-- Captured result of one external command invocation
(`Deno.CommandOutput`): exit status and both streams (streams kept opaque). -/
structure CommandOutput where
  success : Bool
  stdout : String
  stderr : String
deriving DecidableEq, Repr

/-- Observable actions of the build pipeline, in program order. -/
inductive Event where
  | runCommand (cmd : String) (args : List String)
  | logStdout (s : String)
  | logStderr (s : String)
  | logJsonOutput (o : CommandOutput)
  | readFileEv (p : String)
deriving DecidableEq, Repr

/-- `handleOutput` from the source (lines 65-71): log stdout on success,
stderr on failure; never throws. -/
def handleOutput (output : CommandOutput) : List Event :=
  if output.success then [Event.logStdout output.stdout]
  else [Event.logStderr output.stderr]

/-- `path.join` over a slash-separated filesystem. -/
def joinPath (parts : List String) : String := String.intercalate "/" parts

/-- The environment `buildHook` runs against: the working directory, the
captured output of each external command it spawns, and the bytes of the
cleaned artifact on disk at read time (`none` when the file does not exist). -/
structure BuildEnv where
  cwd : String
  cargoBuildOutput : CommandOutput
  wasmOptOutput : CommandOutput
  hookCleanerOut : CommandOutput
  wasm2watRawOut : CommandOutput
  wasm2watCleanedOut : CommandOutput
  wasm2watFlattenedOut : CommandOutput
  guardCheckerOut : CommandOutput
  cleanedWasm : Option (List (Fin 256))
deriving DecidableEq, Repr

/-- `buildHook` from the source (lines 73-185): run cargo, build the payload,
run wasm-opt, hook-cleaner, the three concurrent wasm2wat debug conversions
(their outputs discarded; events listed in source order), guard_checker, then
read the cleaned artifact and attach its uppercase hex as `CreateCode`.
Returns the event trace and either the payload or the thrown error (only
`Deno.readFile` can reject here; command outputs are captured, not thrown). -/
def buildHook (hookName : String) (env : BuildEnv) :
    List Event × Except String HookPayload :=
  let evs := [Event.runCommand "cargo" ["+nightly", "build", "--release"]] ++
    handleOutput env.cargoBuildOutput
  let hook := createHookPayload (JSNum.num 0) (JSStr.str (hookName ++ "namespace"))
    JSNum.undefined none none none
  let wasmDir := joinPath [env.cwd, "target", "wasm32-unknown-unknown", "release"]
  let debugDir := joinPath [env.cwd, "target"]
  let wasmInFile := joinPath [wasmDir, hookName ++ ".wasm"]
  let wasmOutFlattened := joinPath [wasmDir, hookName ++ "-flattened.wasm"]
  let evs := evs ++ [Event.runCommand "wasm-opt"
    [wasmInFile, "--flatten", "--rereloop", "-Oz", "-Oz", "-o", wasmOutFlattened]] ++
    handleOutput env.wasmOptOutput
  let wasmOutCleaned := joinPath [wasmDir, hookName ++ "-cleaned.wasm"]
  let evs := evs ++ [Event.runCommand "hook-cleaner" [wasmOutFlattened, wasmOutCleaned],
    Event.logJsonOutput env.hookCleanerOut]
  let evs := evs ++
    [Event.runCommand "wasm2wat" [wasmInFile, "-o", joinPath [debugDir, hookName ++ ".wat"]],
     Event.runCommand "wasm2wat"
       [wasmOutCleaned, "-o", joinPath [debugDir, hookName ++ "-cleaned.wat"]],
     Event.runCommand "wasm2wat"
       [wasmOutFlattened, "-o", joinPath [debugDir, hookName ++ "-flattened.wat"]]]
  let evs := evs ++ [Event.runCommand "guard_checker" [wasmOutCleaned]] ++
    handleOutput env.guardCheckerOut
  match env.cleanedWasm with
  | none => (evs, Except.error ("No such file: " ++ wasmOutCleaned))
  | some wasm =>
    let wasmHex := strToUpper (Hex.uint8ArrayToHexString wasm)
    (evs ++ [Event.readFileEv wasmOutCleaned],
      Except.ok { hook with CreateCode := some wasmHex })

/-- A transaction at the fee-estimation boundary: the fee field, the
signing-key field, and the remaining fields kept opaque. -/
structure Transaction where
  Fee : Option String
  SigningPubKey : Option String
  fields : List (String × String)
deriving DecidableEq, Repr

/-- What one run of `getTransactionFee` produced and touched: the returned
fee, the draft passed to `autofill`, the autofilled draft that was
wire-encoded, the encoded blob sent to the fee-estimation query, and the
caller's transaction object as it stands after the run. -/
structure FeeRun where
  fee : String
  autofillArg : Transaction
  preparedTx : Transaction
  txBlob : String
  callerTx : Transaction
deriving DecidableEq, Repr

/-- The `JSON.parse(JSON.stringify(transaction))` deep copy. On this record
representation (strings plus presence-tracking options) the round trip
preserves every field; its role in the source is to produce a fresh object,
which the explicit state threading below models. -/
def jsonClone (t : Transaction) : Transaction := t

/-- `getTransactionFee` from the source (lines 187-202), over collaborator
functions `autofill` (the network client's field completion), `encodeTx`
(`xrpl.encode`) and `feeEstimate` (`getFeeEstimateXrp` with the same client).
Each source statement is translated in order; assignments `copyTx.Fee = "0"`
and `copyTx.SigningPubKey = ""` update only the clone. -/
def getTransactionFee (autofill : Transaction → Transaction)
    (encodeTx : Transaction → String) (feeEstimate : String → String)
    (transaction : Transaction) : FeeRun :=
  let copyTx := jsonClone transaction
  let copyTx := { copyTx with Fee := some "0" }
  let copyTx := { copyTx with SigningPubKey := some "" }
  let preparedTx := autofill copyTx
  let tx_blob := encodeTx preparedTx
  let result := feeEstimate tx_blob
  { fee := result, autofillArg := copyTx, preparedTx := preparedTx,
    txBlob := tx_blob, callerTx := transaction }

/-- Observable actions of the retrying submitter, in program order. -/
inductive SubmitEvent where
  | attemptCall (i : Nat)
  | logError (msg : String)
  | sleep (ms : Nat)
deriving DecidableEq, Repr

/-- The `while (tries < 3)` loop of `submitAndWaitWithRetries` (source lines
208-219), by structural recursion on `remaining = 3 - tries`, which the loop
condition decreases; `submitOutcome n` is the outcome of the `(n+1)`-th call
to `client.submitAndWait`. On failure the loop logs the error, sleeps 1000ms,
increments `tries` and continues; on exhaustion the function throws an error
naming `tries` (source line 221). -/
def submitLoop {R : Type} (submitOutcome : Nat → Except String R) :
    Nat → Nat → List SubmitEvent → List SubmitEvent × Except String R
  | tries, 0, evs =>
    (evs, Except.error ("Could not submit transaction after " ++ toString tries ++ " tries"))
  | tries, remaining + 1, evs =>
    match submitOutcome tries with
    | Except.ok r => (evs ++ [SubmitEvent.attemptCall tries], Except.ok r)
    | Except.error e =>
      submitLoop submitOutcome (tries + 1) remaining
        (evs ++ [SubmitEvent.attemptCall tries,
          SubmitEvent.logError (e ++ " - retrying..."), SubmitEvent.sleep 1000])

/-- `submitAndWaitWithRetries` from the source (lines 204-222): the loop
entered with `tries = 0`, returning the event trace and the result. -/
def submitAndWaitWithRetries {R : Type} (submitOutcome : Nat → Except String R) :
    List SubmitEvent × Except String R :=
  submitLoop submitOutcome 0 3 []

/-- The command names invoked in an event trace, in order. -/
def commandsOf (evs : List Event) : List String :=
  evs.filterMap (fun e => match e with
    | Event.runCommand c _ => some c
    | _ => none)

/-- The attempt events in a submission trace, in order. -/
def attemptsOf (evs : List SubmitEvent) : List Nat :=
  evs.filterMap (fun e => match e with
    | SubmitEvent.attemptCall i => some i
    | _ => none)

/-- The sleep events in a submission trace, in order. -/
def sleepsOf (evs : List SubmitEvent) : List Nat :=
  evs.filterMap (fun e => match e with
    | SubmitEvent.sleep ms => some ms
    | _ => none)

/-- The spec's per-field hex normalization (§4.2): pass valid hex through,
hex-encode anything else. Stated-side companion of the two `if` statements in
`hexHookParametersGo`. -/
def hexField (s : String) : String :=
  if Hex.isHex s then s else Hex.stringToHexString s

/-- Build one parameter from a name and a value. -/
def mkParam (nm v : String) : HookParameter :=
  { HookParameter := { HookParameterName := nm, HookParameterValue := v } }

/-- Per-parameter normalization: `hexField` on name and value independently. -/
def hexParam (p : HookParameter) : HookParameter :=
  { HookParameter :=
      { HookParameterName := hexField p.HookParameter.HookParameterName,
        HookParameterValue := hexField p.HookParameter.HookParameterValue } }

/-- A concrete (everywhere-failing) command output, for witnesses. -/
def sampleOutput : CommandOutput :=
  { success := false, stdout := "out", stderr := "err" }

/-- A concrete build environment whose every stage fails but whose cleaned
artifact exists (one byte, 0x61), for witnesses. -/
def sampleEnv : BuildEnv :=
  { cwd := "/work", cargoBuildOutput := sampleOutput, wasmOptOutput := sampleOutput,
    hookCleanerOut := sampleOutput, wasm2watRawOut := sampleOutput,
    wasm2watCleanedOut := sampleOutput, wasm2watFlattenedOut := sampleOutput,
    guardCheckerOut := sampleOutput, cleanedWasm := some [(97 : Fin 256)] }

/-- The payload a successful `buildHook` run returns: the builder's payload
with the cleaned artifact's uppercase hex attached as `CreateCode`. -/
def builtPayload (hookName : String) (wasm : List (Fin 256)) : HookPayload :=
  { createHookPayload (JSNum.num 0) (JSStr.str (hookName ++ "namespace"))
      JSNum.undefined none none none with
    CreateCode := some (strToUpper (Hex.uint8ArrayToHexString wasm)) }

/-- A submission collaborator that fails on every call, for witnesses. -/
def alwaysFailSubmit : Nat → Except String Nat := fun _ => Except.error "boom"

/-- A concrete transaction, for witnesses. -/
def sampleTx : Transaction :=
  { Fee := some "12", SigningPubKey := some "ABCD",
    fields := [("TransactionType", "SetHook")] }

/-! Theorems. First, supporting lemmas shared across the claim theorems. -/

set_option maxRecDepth 10000 in
/-- The SHA-256 embedding reproduces the NIST test vector for "abc",
grounding `hexNamespace` in the reference hash. -/
theorem sha256Hex_nist_abc : sha256Hex (stringUtf8 "abc") =
    "ba7816bf8f01cfea414140de5dae2223b00361a396177a9cb410ff61f20015ad" := by decide

set_option maxRecDepth 10000 in
/-- The SHA-256 embedding reproduces the NIST test vector for the empty
message. -/
theorem sha256Hex_nist_empty : sha256Hex (stringUtf8 "") =
    "e3b0c44298fc1c149afbf4c8996fb92427ae41e4649b934ca495991b7852b855" := by decide

/-- Normal form of `createHookPayload`: each wire field as a function of its
own argument. -/
theorem createHookPayload_fields (version : JSNum) (namespaceArg : JSStr)
    (flags : JSNum) (hookOnArg : Option String)
    (hookParams : Option (List HookParameter)) (hookGrants : Option (List HookGrant)) :
    createHookPayload version namespaceArg flags hookOnArg hookParams hookGrants =
    { hookOn := hookOnArg.getD defaultHookOn,
      HookApiVersion := if version.isNumber then some version.toInt else none,
      HookNamespace := if namespaceArg.truthy then
        some (hexNamespace namespaceArg.getStr) else none,
      Flags := if flags.truthy then some flags.toInt else none,
      HookParameters := hookParams.map hexHookParameters,
      HookGrants := hookGrants,
      CreateCode := none } := by
  cases version <;> cases namespaceArg <;> cases flags <;>
    cases hookParams <;> cases hookGrants <;>
    simp [createHookPayload, JSNum.isNumber, JSNum.truthy, JSNum.toInt,
      JSStr.truthy, JSStr.getStr, Option.map]
  all_goals (split_ifs <;> simp_all)

set_option maxRecDepth 10000 in
/-- C1 (counterexample): with no `hookOn` supplied, the built payload's
on-mask is the source's 64-digit default, which differs from the spec's
63-digit literal constant
`0xFFFFFFFFFFFFFFFFFFFFFFFFFFFFFFFFFFFFFFFFFFFFFFFFFFFFFFFFFBFFFFF` both as
a number and digit-for-digit (case-insensitively). -/
theorem c1_spec_onMask_constant_refuted :
    parseHexLiteral (createHookPayload JSNum.undefined JSStr.undefined JSNum.undefined
        none none none).hookOn ≠
      some 0xFFFFFFFFFFFFFFFFFFFFFFFFFFFFFFFFFFFFFFFFFFFFFFFFFFFFFFFFFBFFFFF ∧
    String.mk (((createHookPayload JSNum.undefined JSStr.undefined JSNum.undefined
        none none none).hookOn.data.drop 2).map Char.toUpper) ≠
      "FFFFFFFFFFFFFFFFFFFFFFFFFFFFFFFFFFFFFFFFFFFFFFFFFFFFFFFFFBFFFFF" := by
  decide

set_option maxRecDepth 10000 in
/-- C1 (amended): for every call to `createHookPayload` in which no `hookOn`
argument is supplied, the built payload's on-mask field is present and equals
the source's literal default
`0xffffffffffffffffffffffffffffffffffffffffffffffffffffffffffbfffff`
(64 hex digits — all ones except bit 22). -/
theorem c1_default_onMask (version : JSNum) (namespaceArg : JSStr) (flags : JSNum)
    (hookParams : Option (List HookParameter)) (hookGrants : Option (List HookGrant)) :
    (createHookPayload version namespaceArg flags none hookParams hookGrants).hookOn
      = defaultHookOn ∧
    parseHexLiteral (createHookPayload version namespaceArg flags none hookParams
        hookGrants).hookOn =
      some 0xffffffffffffffffffffffffffffffffffffffffffffffffffffffffffbfffff := by
  rw [createHookPayload_fields]
  refine ⟨rfl, ?_⟩
  show parseHexLiteral defaultHookOn =
    some 0xffffffffffffffffffffffffffffffffffffffffffffffffffffffffffbfffff
  decide

/-- C4: `createHookPayload` with `version = 0` yields `HookApiVersion`
present and equal to 0; with the argument absent (`undefined`), the field is
absent — zero and unset are distinguishable. -/
theorem c4_apiVersion_zero_present (namespaceArg : JSStr) (flags : JSNum)
    (hookOnArg : Option String) (hookParams : Option (List HookParameter))
    (hookGrants : Option (List HookGrant)) :
    (createHookPayload (JSNum.num 0) namespaceArg flags hookOnArg hookParams
        hookGrants).HookApiVersion = some 0 ∧
    (createHookPayload JSNum.undefined namespaceArg flags hookOnArg hookParams
        hookGrants).HookApiVersion = none := by
  rw [createHookPayload_fields, createHookPayload_fields]
  exact ⟨rfl, rfl⟩

/-- C5: `createHookPayload` with `flags = 0` yields a payload with no `Flags`
field, identical to the payload built with `flags` absent; over all integer
arguments the field is set exactly when the value is non-zero. -/
theorem c5_flags_zero_absent (version : JSNum) (namespaceArg : JSStr)
    (hookOnArg : Option String) (hookParams : Option (List HookParameter))
    (hookGrants : Option (List HookGrant)) :
    (createHookPayload version namespaceArg (JSNum.num 0) hookOnArg hookParams
        hookGrants).Flags = none ∧
    createHookPayload version namespaceArg (JSNum.num 0) hookOnArg hookParams hookGrants =
      createHookPayload version namespaceArg JSNum.undefined hookOnArg hookParams
        hookGrants ∧
    ∀ n : Int, (createHookPayload version namespaceArg (JSNum.num n) hookOnArg hookParams
        hookGrants).Flags = if n = 0 then none else some n := by
  simp only [createHookPayload_fields]
  refine ⟨by simp [JSNum.truthy], by simp [JSNum.truthy], fun n => ?_⟩
  by_cases h : n = 0 <;> simp [JSNum.truthy, JSNum.toInt, h]

/-- An `if` on a Boolean's falsehood swaps the branches of the `if` on its
truth. -/
theorem ite_eq_false_swap {α : Type} (b : Bool) (x y : α) :
    (if b = false then x else y) = if b = true then y else x := by
  cases b <;> simp

/-- Every digit `hexDigitLower` emits for a nibble is a hexadecimal digit. -/
theorem isHexDigitChar_hexDigitLower : ∀ n < 16, isHexDigitChar (hexDigitLower n) = true := by
  decide

/-- `Hex.stringToHexString` emits only hexadecimal digits, so its output is
valid hex. -/
theorem isHex_stringToHexString (s : String) :
    Hex.isHex (Hex.stringToHexString s) = true := by
  unfold Hex.isHex Hex.stringToHexString
  rw [List.all_eq_true]
  intro c hc
  have hc' : c ∈ (s.data.map fun ch => byteToHexChars (ch.toNat % 256)).flatten := hc
  rcases List.mem_flatten.mp hc' with ⟨l, hl, hcl⟩
  rcases List.mem_map.mp hl with ⟨ch, _, rfl⟩
  simp only [byteToHexChars, List.mem_cons, List.not_mem_nil, or_false] at hcl
  rcases hcl with rfl | rfl
  · exact isHexDigitChar_hexDigitLower _ (Nat.mod_lt _ (by norm_num))
  · exact isHexDigitChar_hexDigitLower _ (Nat.mod_lt _ (by norm_num))

/-- The per-field normalization is idempotent. -/
theorem hexField_idem (s : String) : hexField (hexField s) = hexField s := by
  unfold hexField
  cases h : Hex.isHex s
  · simp [h, isHex_stringToHexString]
  · simp [h]

/-- The per-parameter normalization is idempotent. -/
theorem hexParam_idem (p : HookParameter) : hexParam (hexParam p) = hexParam p := by
  simp [hexParam, hexField_idem]

/-- The accumulator loop of `hexHookParameters` is the in-order map of
`hexParam`. -/
theorem hexHookParametersGo_eq (l acc : List HookParameter) :
    hexHookParametersGo l acc = acc ++ l.map hexParam := by
  induction l generalizing acc with
  | nil => simp [hexHookParametersGo]
  | cons p rest ih =>
    simp [hexHookParametersGo, ih, hexParam, hexField, ite_eq_false_swap]

/-- `hexHookParameters` is the order-preserving map of the per-parameter
normalization. -/
theorem hexHookParameters_map (l : List HookParameter) :
    hexHookParameters l = l.map hexParam := by
  simp [hexHookParameters, hexHookParametersGo_eq]

/-- C6: `hexHookParameters` is idempotent; it maps the per-parameter
normalization over the input in order; a name/value pair already in valid hex
passes through unchanged; any non-hex field is replaced by the
two-hex-digit-per-byte encoding of its characters. -/
theorem c6_parameterEncoder_idempotent :
    (∀ ps : List HookParameter,
      hexHookParameters (hexHookParameters ps) = hexHookParameters ps) ∧
    (∀ ps : List HookParameter, hexHookParameters ps = ps.map hexParam) ∧
    (∀ nm v : String, Hex.isHex nm = true → Hex.isHex v = true →
      hexHookParameters [mkParam nm v] = [mkParam nm v]) ∧
    (∀ nm v : String, Hex.isHex nm = false → Hex.isHex v = false →
      hexHookParameters [mkParam nm v] =
        [mkParam (Hex.stringToHexString nm) (Hex.stringToHexString v)]) := by
  refine ⟨fun ps => ?_, hexHookParameters_map, ?_, ?_⟩
  · rw [hexHookParameters_map, hexHookParameters_map, List.map_map]
    induction ps with
    | nil => rfl
    | cons p r ih => simp_all [hexParam_idem]
  · intro nm v h1 h2
    simp [hexHookParameters_map, hexParam, hexField, mkParam, h1, h2]
  · intro nm v h1 h2
    simp [hexHookParameters_map, hexParam, hexField, mkParam, h1, h2]

/-- Concrete instance of C6's pass-through conjunct: a parameter whose name
and value are already hex is unchanged. -/
theorem c6_parameterEncoder_idempotent_witness :
    hexHookParameters [mkParam "00" "FF"] = [mkParam "00" "FF"] :=
  c6_parameterEncoder_idempotent.2.2.1 "00" "FF" (by decide) (by decide)

/-- C3: with a client whose every `submitAndWait` call fails, exactly 3
attempts are made, a fixed 1000ms sleep separates consecutive attempts (the
full trace is given), and the terminal error names the attempt count; if some
attempt succeeds, its result is returned and no further attempt is made. -/
theorem c3_submit_retries_three_attempts {R : Type} (submitOutcome : Nat → Except String R)
    (e : Nat → String) :
    ((∀ i, submitOutcome i = Except.error (e i)) →
      attemptsOf (submitAndWaitWithRetries submitOutcome).1 = [0, 1, 2] ∧
      (submitAndWaitWithRetries submitOutcome).1 =
        [SubmitEvent.attemptCall 0, SubmitEvent.logError (e 0 ++ " - retrying..."),
         SubmitEvent.sleep 1000,
         SubmitEvent.attemptCall 1, SubmitEvent.logError (e 1 ++ " - retrying..."),
         SubmitEvent.sleep 1000,
         SubmitEvent.attemptCall 2, SubmitEvent.logError (e 2 ++ " - retrying..."),
         SubmitEvent.sleep 1000] ∧
      (submitAndWaitWithRetries submitOutcome).2 =
        Except.error "Could not submit transaction after 3 tries") ∧
    (∀ i r, i < 3 → (∀ j, j < i → submitOutcome j = Except.error (e j)) →
      submitOutcome i = Except.ok r →
      (submitAndWaitWithRetries submitOutcome).2 = Except.ok r ∧
      attemptsOf (submitAndWaitWithRetries submitOutcome).1 = List.range (i + 1)) := by
  constructor
  · intro h
    have h0 := h 0
    have h1 := h 1
    have h2 := h 2
    refine ⟨?_, ?_, ?_⟩ <;>
      simp [submitAndWaitWithRetries, submitLoop, h0, h1, h2, attemptsOf]
    rfl
  · intro i r hi hj hok
    interval_cases i
    · simp [submitAndWaitWithRetries, submitLoop, hok, attemptsOf, List.range_succ]
    · have h0 := hj 0 (by omega)
      simp [submitAndWaitWithRetries, submitLoop, h0, hok, attemptsOf, List.range_succ]
    · have h0 := hj 0 (by omega)
      have h1 := hj 1 (by omega)
      simp [submitAndWaitWithRetries, submitLoop, h0, h1, hok, attemptsOf, List.range_succ]

/-- Concrete instance of C3: an always-failing collaborator produces exactly
the attempts 0, 1, 2 and the terminal three-tries error. -/
theorem c3_submit_retries_three_attempts_witness :
    attemptsOf (submitAndWaitWithRetries alwaysFailSubmit).1 = [0, 1, 2] ∧
    (submitAndWaitWithRetries alwaysFailSubmit).2 =
      Except.error "Could not submit transaction after 3 tries" :=
  ⟨((c3_submit_retries_three_attempts alwaysFailSubmit (fun _ => "boom")).1
      (fun _ => rfl)).1,
   ((c3_submit_retries_three_attempts alwaysFailSubmit (fun _ => "boom")).1
      (fun _ => rfl)).2.2⟩

/-- C10: when every attempt fails, the 1000ms backoff sleep happens after
every failed attempt including the third and final one — three sleeps in all,
and the last trace event before the terminal error is a sleep. -/
theorem c10_sleep_after_final_attempt {R : Type} (submitOutcome : Nat → Except String R)
    (e : Nat → String) (h : ∀ i, submitOutcome i = Except.error (e i)) :
    sleepsOf (submitAndWaitWithRetries submitOutcome).1 = [1000, 1000, 1000] ∧
    ((submitAndWaitWithRetries submitOutcome).1).getLast? =
      some (SubmitEvent.sleep 1000) := by
  have h0 := h 0
  have h1 := h 1
  have h2 := h 2
  constructor <;> simp [submitAndWaitWithRetries, submitLoop, h0, h1, h2, sleepsOf]

/-- Concrete instance of C10: three sleeps, the last event a sleep. -/
theorem c10_sleep_after_final_attempt_witness :
    sleepsOf (submitAndWaitWithRetries alwaysFailSubmit).1 = [1000, 1000, 1000] ∧
    ((submitAndWaitWithRetries alwaysFailSubmit).1).getLast? =
      some (SubmitEvent.sleep 1000) :=
  c10_sleep_after_final_attempt alwaysFailSubmit (fun _ => "boom") (fun _ => rfl)

/-- C9: `getTransactionFee` leaves the caller's transaction unchanged and the
draft it passes to `autofill` has fee `"0"` and empty signing key; under the
collaborator contract that `autofill` preserves fields already present (§4.5:
it only completes missing derived fields), the autofilled draft that gets
wire-encoded keeps both, and the returned fee is the estimate on that blob. -/
theorem c9_feeEstimator_draft (autofill : Transaction → Transaction)
    (encodeTx : Transaction → String) (feeEstimate : String → String) (tx : Transaction)
    (hfee : ∀ t f, t.Fee = some f → (autofill t).Fee = some f)
    (hspk : ∀ t k, t.SigningPubKey = some k → (autofill t).SigningPubKey = some k) :
    (getTransactionFee autofill encodeTx feeEstimate tx).callerTx = tx ∧
    (getTransactionFee autofill encodeTx feeEstimate tx).autofillArg.Fee = some "0" ∧
    (getTransactionFee autofill encodeTx feeEstimate tx).autofillArg.SigningPubKey =
      some "" ∧
    (getTransactionFee autofill encodeTx feeEstimate tx).preparedTx.Fee = some "0" ∧
    (getTransactionFee autofill encodeTx feeEstimate tx).preparedTx.SigningPubKey =
      some "" ∧
    (getTransactionFee autofill encodeTx feeEstimate tx).txBlob =
      encodeTx ((getTransactionFee autofill encodeTx feeEstimate tx).preparedTx) ∧
    (getTransactionFee autofill encodeTx feeEstimate tx).fee =
      feeEstimate ((getTransactionFee autofill encodeTx feeEstimate tx).txBlob) := by
  refine ⟨rfl, rfl, rfl, ?_, ?_, rfl, rfl⟩
  · exact hfee _ _ rfl
  · exact hspk _ _ rfl

/-- `commandsOf` distributes over trace concatenation. -/
theorem commandsOf_append (a b : List Event) :
    commandsOf (a ++ b) = commandsOf a ++ commandsOf b := by
  simp [commandsOf]

/-- `handleOutput` only logs: it runs no command. -/
theorem commandsOf_handleOutput (o : CommandOutput) :
    commandsOf (handleOutput o) = [] := by
  cases h : o.success <;> simp [handleOutput, h, commandsOf]

/-- Appending the literal `"namespace"` never yields the empty string. -/
theorem isEmpty_append_namespace (s : String) :
    (s ++ "namespace").isEmpty = false := by
  cases h : (s ++ "namespace").isEmpty
  · rfl
  · exfalso
    have he : s ++ "namespace" = "" := (String.isEmpty_iff _).mp h
    have hd := congrArg String.data he
    rw [String.data_append] at hd
    rcases List.append_eq_nil.mp hd with ⟨_, h2⟩
    exact absurd h2 (by decide)

/-- With the cleaned artifact on disk, `buildHook` returns `builtPayload`. -/
theorem buildHook_ok (hookName : String) (env : BuildEnv) (wasm : List (Fin 256))
    (hfile : env.cleanedWasm = some wasm) :
    (buildHook hookName env).2 = Except.ok (builtPayload hookName wasm) := by
  simp [buildHook, hfile, builtPayload]

/-- C2: whatever the exit statuses of the compile, optimize, clean and
validate invocations, `buildHook` raises nothing: it returns a payload with
`CreateCode` attached, invokes every stage's command in order, logs (and only
logs) the stderr of each failed `handleOutput`-reported stage, and logs the
clean stage's captured output unconditionally. -/
theorem c2_pipeline_continues_on_stage_failure (hookName : String) (env : BuildEnv)
    (wasm : List (Fin 256)) (hfile : env.cleanedWasm = some wasm) :
    ((buildHook hookName env).2 = Except.ok (builtPayload hookName wasm) ∧
      (builtPayload hookName wasm).CreateCode.isSome = true) ∧
    commandsOf (buildHook hookName env).1 =
      ["cargo", "wasm-opt", "hook-cleaner", "wasm2wat", "wasm2wat", "wasm2wat",
       "guard_checker"] ∧
    (env.cargoBuildOutput.success = false →
      Event.logStderr env.cargoBuildOutput.stderr ∈ (buildHook hookName env).1) ∧
    (env.wasmOptOutput.success = false →
      Event.logStderr env.wasmOptOutput.stderr ∈ (buildHook hookName env).1) ∧
    (env.guardCheckerOut.success = false →
      Event.logStderr env.guardCheckerOut.stderr ∈ (buildHook hookName env).1) ∧
    Event.logJsonOutput env.hookCleanerOut ∈ (buildHook hookName env).1 := by
  refine ⟨⟨buildHook_ok hookName env wasm hfile, rfl⟩, ?_, ?_, ?_, ?_, ?_⟩
  · cases hc : env.cargoBuildOutput.success <;> cases hw : env.wasmOptOutput.success <;>
      cases hg : env.guardCheckerOut.success <;>
      simp [buildHook, hfile, handleOutput, hc, hw, hg, commandsOf]
  · intro h
    simp [buildHook, hfile, handleOutput, h]
  · intro h
    simp [buildHook, hfile, handleOutput, h]
  · intro h
    simp [buildHook, hfile, handleOutput, h]
  · simp [buildHook, hfile]

/-- Concrete instance of C2: in an environment where every stage fails but
the artifact exists, every stage command still runs. -/
theorem c2_pipeline_continues_on_stage_failure_witness :
    commandsOf (buildHook "foo" sampleEnv).1 =
      ["cargo", "wasm-opt", "hook-cleaner", "wasm2wat", "wasm2wat", "wasm2wat",
       "guard_checker"] :=
  (c2_pipeline_continues_on_stage_failure "foo" sampleEnv [(97 : Fin 256)] rfl).2.1

set_option maxRecDepth 10000 in
/-- C7: `buildHook` builds its payload with `apiVersion = 0` and namespace
seed `hookName ++ "namespace"`; the payload's `HookNamespace` is the SHA-256
digest of the seed, and for `hookName = "foo"` it equals the reference digest
of the exact string `"foonamespace"` — a 64-character uppercase hex string,
never the raw seed. -/
theorem c7_buildHook_namespace (hookName : String) (env : BuildEnv)
    (wasm : List (Fin 256)) (hfile : env.cleanedWasm = some wasm) :
    ((buildHook hookName env).2 = Except.ok (builtPayload hookName wasm) ∧
      (builtPayload hookName wasm).HookApiVersion = some 0 ∧
      (builtPayload hookName wasm).HookNamespace =
        some (hexNamespace (hookName ++ "namespace"))) ∧
    hexNamespace "foonamespace" =
      "3EF7FEEFC8DE4F848C7051D9F78A00E8AAD4E9A1A9DC032C665CDC0612EBFC10" ∧
    hexNamespace "foonamespace" ≠ "foonamespace" ∧
    (hexNamespace "foonamespace").length = 64 ∧
    ((hexNamespace "foonamespace").data.all fun c => isHexDigitChar c && !c.isLower) =
      true := by
  have hd : hexNamespace "foonamespace" =
      "3EF7FEEFC8DE4F848C7051D9F78A00E8AAD4E9A1A9DC032C665CDC0612EBFC10" := by
    decide
  refine ⟨⟨buildHook_ok hookName env wasm hfile, ?_, ?_⟩, hd, ?_, ?_, ?_⟩
  · simp [builtPayload, createHookPayload_fields, JSNum.isNumber, JSNum.toInt]
  · simp [builtPayload, createHookPayload_fields, JSStr.truthy, JSStr.getStr,
      isEmpty_append_namespace]
  · rw [hd]
    decide
  · rw [hd]
    decide
  · rw [hd]
    decide

set_option maxRecDepth 10000 in
/-- Concrete instance of C7 at `hookName = "foo"`: the built payload's
`HookNamespace` is the digest of `"foonamespace"`. -/
theorem c7_buildHook_namespace_witness :
    (builtPayload "foo" [(97 : Fin 256)]).HookNamespace =
      some "3EF7FEEFC8DE4F848C7051D9F78A00E8AAD4E9A1A9DC032C665CDC0612EBFC10" := by
  have h := c7_buildHook_namespace "foo" sampleEnv [(97 : Fin 256)] rfl
  rw [h.1.2.2, show ("foo" ++ "namespace" : String) = "foonamespace" from rfl, h.2.1]

set_option maxRecDepth 10000 in
/-- Every uppercased byte digit pair is the nibbles' uppercase digits. -/
theorem byteToHexChars_toUpper : ∀ b : Fin 256,
    (byteToHexChars b.val).map Char.toUpper =
      [hexDigitUpper (b.val / 16), hexDigitUpper (b.val % 16)] := by
  decide

set_option maxRecDepth 10000 in
/-- Both uppercase digits of any byte are uppercase hexadecimal characters. -/
theorem upperHexDigits_byte : ∀ b : Fin 256,
    (isHexDigitChar (hexDigitUpper (b.val / 16)) &&
      !(hexDigitUpper (b.val / 16)).isLower) = true ∧
    (isHexDigitChar (hexDigitUpper (b.val % 16)) &&
      !(hexDigitUpper (b.val % 16)).isLower) = true := by
  decide

/-- The uppercased hex transcription of a byte list, bytewise. -/
theorem hexData_eq (l : List (Fin 256)) :
    ((l.map fun b => byteToHexChars b.val).flatten).map Char.toUpper =
      (l.map fun b => [hexDigitUpper (b.val / 16), hexDigitUpper (b.val % 16)]).flatten := by
  induction l with
  | nil => rfl
  | cons b r ih => simp [byteToHexChars_toUpper b, ih]

/-- Two hex digits per byte: the transcription has twice the byte count. -/
theorem length_hexData (l : List (Fin 256)) :
    ((l.map fun b => [hexDigitUpper (b.val / 16), hexDigitUpper (b.val % 16)]).flatten).length =
      2 * l.length := by
  induction l with
  | nil => rfl
  | cons b r ih =>
    simp [ih]
    omega

/-- Every character of the transcription is an uppercase hex digit. -/
theorem all_upperHexData (l : List (Fin 256)) :
    (((l.map fun b => [hexDigitUpper (b.val / 16), hexDigitUpper (b.val % 16)]).flatten).all
      fun c => isHexDigitChar c && !c.isLower) = true := by
  rw [List.all_eq_true]
  intro c hc
  rcases List.mem_flatten.mp hc with ⟨pair, hp, hcp⟩
  rcases List.mem_map.mp hp with ⟨b, _, rfl⟩
  simp only [List.mem_cons, List.not_mem_nil, or_false] at hcp
  rcases hcp with rfl | rfl
  · exact (upperHexDigits_byte b).1
  · exact (upperHexDigits_byte b).2

/-- C8: the payload of a `buildHook` run over a cleaned artifact of N bytes
carries a `CreateCode` of exactly 2N characters, all uppercase hex, that is
the byte-for-byte hex transcription of the artifact. -/
theorem c8_createCode_hex_transcription (hookName : String) (env : BuildEnv)
    (wasm : List (Fin 256)) (hfile : env.cleanedWasm = some wasm) :
    ∃ code, (buildHook hookName env).2 = Except.ok (builtPayload hookName wasm) ∧
      (builtPayload hookName wasm).CreateCode = some code ∧
      code.length = 2 * wasm.length ∧
      code.data =
        (wasm.map fun b => [hexDigitUpper (b.val / 16), hexDigitUpper (b.val % 16)]).flatten ∧
      (code.data.all fun c => isHexDigitChar c && !c.isLower) = true := by
  refine ⟨strToUpper (Hex.uint8ArrayToHexString wasm),
    buildHook_ok hookName env wasm hfile, rfl, ?_, ?_, ?_⟩
  · show (((wasm.map fun b => byteToHexChars b.val).flatten).map Char.toUpper).length =
      2 * wasm.length
    rw [hexData_eq, length_hexData]
  · show ((wasm.map fun b => byteToHexChars b.val).flatten).map Char.toUpper =
      (wasm.map fun b => [hexDigitUpper (b.val / 16), hexDigitUpper (b.val % 16)]).flatten
    exact hexData_eq wasm
  · show (((wasm.map fun b => byteToHexChars b.val).flatten).map Char.toUpper).all
      (fun c => isHexDigitChar c && !c.isLower) = true
    rw [hexData_eq]
    exact all_upperHexData wasm

/-- Concrete instance of C8: the one-byte artifact `[0x61]` yields
`CreateCode = "61"`. -/
theorem c8_createCode_hex_transcription_witness :
    ∃ code, (buildHook "foo" sampleEnv).2 = Except.ok (builtPayload "foo" [(97 : Fin 256)]) ∧
      (builtPayload "foo" [(97 : Fin 256)]).CreateCode = some code ∧
      code.length = 2 * ([(97 : Fin 256)] : List (Fin 256)).length :=
  have h := c8_createCode_hex_transcription "foo" sampleEnv [(97 : Fin 256)] rfl
  ⟨h.choose, h.choose_spec.1, h.choose_spec.2.1, h.choose_spec.2.2.1⟩

/-- Concrete instance of C9 with the identity autofill: the caller's
transaction is untouched and the encoded draft carries fee `"0"`. -/
theorem c9_feeEstimator_draft_witness :
    (getTransactionFee id (fun _ => "blob") (fun _ => "10") sampleTx).callerTx =
      sampleTx ∧
    (getTransactionFee id (fun _ => "blob") (fun _ => "10") sampleTx).preparedTx.Fee =
      some "0" :=
  have h := c9_feeEstimator_draft id (fun _ => "blob") (fun _ => "10") sampleTx
    (fun _ _ hf => hf) (fun _ _ hk => hk)
  ⟨h.1, h.2.2.2.1⟩

end HooksBuilder
